import Mathlib

/-!
Verification of the ComfyUI generation-session client
(`src/lib/comfyui-client.ts` of the `craft` repository).

The client class is embedded shallowly: its mutable fields become a
`ClientState` record, each event handler or method becomes a pure function
from the old state (plus the outcome of any awaited HTTP call, passed as an
explicit `Except` argument) to the new state together with the list of
statuses pushed through `onStatusChange` and, where relevant, the payload of
any other observable side effect (a newly opened WebSocket URL, a scheduled
reconnect delay, the URL handed to `onImageGenerated`, or a rethrown error).
JavaScript string truthiness is modelled as inequality with `""`; absent
object fields are modelled with `Option`.
-/

namespace Craft

/-! ## Basic string helpers -/

/-- Is `pat` a contiguous sublist of `l`? (Used to model JS `String.includes`.) -/
def charsContain (pat : List Char) : List Char → Bool
  | [] => pat.isEmpty
  | c :: rest => pat.isPrefixOf (c :: rest) || charsContain pat rest

/-- JS `s.includes(pat)`. -/
def strIncludes (s pat : String) : Bool :=
  charsContain pat.toList s.toList

/-- Drop every trailing `/` from a string (the regex `/\/+$/` replace). -/
def dropTrailingSlashes (s : String) : String :=
  String.mk ((s.toList.reverse.dropWhile fun c => c == '/').reverse)

/-- Drop every leading `/` from a string (the regex `/^\/+/` replace). -/
def dropLeadingSlashes (s : String) : String :=
  String.mk (s.toList.dropWhile fun c => c == '/')

/-- `normalizeUrl` from the client: strip trailing slashes from the base,
leading slashes from the path, and join with a single slash. -/
def normalizeUrl (baseUrl path : String) : String :=
  dropTrailingSlashes baseUrl ++ "/" ++ dropLeadingSlashes path

/-! ## Settings and status model -/

/-- `ComfyUISettings` from `SettingsPanel.tsx`.  The two optional credential
fields are modelled as strings, with the empty string standing for an
absent/falsy credential (the client only ever tests them for truthiness and
copies them verbatim). -/
structure ComfyUISettings where
  baseUrl : String
  wsUrl : String
  cfAccessClientId : String
  cfAccessClientSecret : String
  useCloudflareAccess : Bool
  deriving Repr, DecidableEq

/-- The `type` tags of `GenerationStatus` from `types/index.ts`. -/
inductive StatusType where
  | idle
  | uploading
  | generating
  | completed
  | error
  | connected
  deriving Repr, DecidableEq

/-- `GenerationStatus` from `types/index.ts`; every status the client emits
carries a message, so the optional field is modelled as a plain string. -/
structure GenerationStatus where
  type : StatusType
  message : String
  deriving Repr, DecidableEq

/-- `isLocalDevelopment`: substring tests on the configured base URL. -/
def isLocalDevelopment (settings : ComfyUISettings) : Bool :=
  strIncludes settings.baseUrl "localhost" ||
  strIncludes settings.baseUrl "127.0.0.1" ||
  strIncludes settings.baseUrl "192.168." ||
  strIncludes settings.baseUrl "10.0." ||
  strIncludes settings.baseUrl "172.16."

/-- `updateHeaders`: the derived headers for JSON calls.  Always
`Content-Type: application/json`; the two Cloudflare Access headers are added
when access is enabled, both credentials are truthy, and the base URL is not
recognised as a local development server. -/
def updateHeaders (settings : ComfyUISettings) : List (String × String) :=
  [("Content-Type", "application/json")] ++
  (if settings.useCloudflareAccess = true ∧ settings.cfAccessClientId ≠ "" ∧
      settings.cfAccessClientSecret ≠ "" ∧ isLocalDevelopment settings = false then
    [("CF-Access-Client-Id", settings.cfAccessClientId),
     ("CF-Access-Client-Secret", settings.cfAccessClientSecret)]
  else [])

/-- The headers built inside `uploadImage`: same Cloudflare condition, but no
forced content type (the upload is multipart). -/
def uploadHeaders (settings : ComfyUISettings) : List (String × String) :=
  if settings.useCloudflareAccess = true ∧ settings.cfAccessClientId ≠ "" ∧
      settings.cfAccessClientSecret ≠ "" ∧ isLocalDevelopment settings = false then
    [("CF-Access-Client-Id", settings.cfAccessClientId),
     ("CF-Access-Client-Secret", settings.cfAccessClientSecret)]
  else []

/-! ## Spec-side network classification (for comparison with the code) -/

/-- The characters following the first `://`, when the list contains one. -/
def afterSchemeSep : List Char → Option (List Char)
  | [] => none
  | c :: rest =>
      if [':', '/', '/'].isPrefixOf (c :: rest) then some (rest.drop 2)
      else afterSchemeSep rest

/-- The host portion of a URL: the text after `://` (if any) up to the first
`:` or `/`. -/
def urlHost (url : String) : String :=
  let rest := (afterSchemeSep url.toList).getD url.toList
  String.mk (rest.takeWhile fun c => c ≠ ':' && c ≠ '/')

/-- Split a character list on `.`. -/
def splitCharsOnDot : List Char → List (List Char)
  | [] => [[]]
  | c :: rest =>
      let r := splitCharsOnDot rest
      if c == '.' then [] :: r
      else
        match r with
        | [] => [[c]]
        | h :: t => (c :: h) :: t

/-- Parse a non-empty all-digit character list as a decimal number. -/
def charsToNat? (l : List Char) : Option Nat :=
  if l.isEmpty then none
  else
    l.foldl
      (fun acc c =>
        match acc with
        | some n => if c.isDigit then some (n * 10 + (c.toNat - 48)) else none
        | none => none)
      (some 0)

/-- The four dotted octets of an IPv4 literal, when the host is one. -/
def ipOctets (host : String) : Option (Nat × Nat × Nat × Nat) :=
  match (splitCharsOnDot host.toList).map charsToNat? with
  | [some a, some b, some c, some d] => some (a, b, c, d)
  | _ => none

/-- Modelled from the spec (§4.4): the configured endpoint is a
loopback or RFC1918 private-network address — `localhost`, `127.0.0.0/8`,
`10.0.0.0/8`, `172.16.0.0/12`, or `192.168.0.0/16`.  This follows the
spec's words, for comparison with the code's `isLocalDevelopment`. -/
def specLoopbackOrPrivate (url : String) : Bool :=
  let h := urlHost url
  h == "localhost" ||
  (match ipOctets h with
   | some (a, b, _, _) =>
       a == 127 || a == 10 || (a == 172 && decide (16 ≤ b) && decide (b ≤ 31)) ||
       (a == 192 && b == 168)
   | none => false)

/-! ## Client state -/

/-- The mutable fields of `ComfyUIClient`.  `ws` holds the URL of the open
duplex connection (`none` when no socket object is held); `reconnectTimeout`
holds the delay of the pending scheduled reconnect, if any. -/
structure ClientState where
  settings : ComfyUISettings
  clientId : String
  ws : Option String
  currentPromptId : Option String
  headers : List (String × String)
  reconnectAttempts : Nat
  reconnectTimeout : Option Nat
  isConnecting : Bool
  isDisconnected : Bool
  deriving Repr, DecidableEq

/-- `maxReconnectAttempts` field initialiser. -/
def maxReconnectAttempts : Nat := 5

/-- The constructor, given initial settings and the generated random client
id: stores the settings, derives the headers, and does not auto-connect. -/
def initialState (settings : ComfyUISettings) (clientId : String) : ClientState :=
  { settings := settings
    clientId := clientId
    ws := none
    currentPromptId := none
    headers := updateHeaders settings
    reconnectAttempts := 0
    reconnectTimeout := none
    isConnecting := false
    isDisconnected := false }

/-! ## Connection lifecycle -/

/-- `disconnect()`: set the intentional-disconnect flag, cancel any pending
scheduled reconnect, and close/release the socket (with normal-closure code
1000, so the subsequent close event takes the intentional branch). -/
def disconnect (s : ClientState) : ClientState :=
  { s with isDisconnected := true, reconnectTimeout := none, ws := none }

/-- `updateSettings(newSettings)`: when the stringified settings differ,
disconnect, store a copy of the new settings, recompute headers, and reset
the retry counter and the two flags; otherwise do nothing.  (For two values
of the `ComfyUISettings` record, `JSON.stringify` equality coincides with
structural equality.) -/
def updateSettings (s : ClientState) (newSettings : ComfyUISettings) : ClientState :=
  if s.settings ≠ newSettings then
    let s1 := disconnect s
    { s1 with
        settings := newSettings
        headers := updateHeaders newSettings
        reconnectAttempts := 0
        isDisconnected := false
        isConnecting := false }
  else s

/-- `connectWebSocket()`: refuse when already connecting or intentionally
disconnected; refuse with a terminal error status when the retry budget is
exhausted; otherwise mark connecting and open a socket to the normalized
`wsUrl` with the client id in the query string.  Returns the new state, the
emitted statuses, and the URL of the newly opened connection (if one was
opened). -/
def connectWebSocket (s : ClientState) :
    ClientState × List GenerationStatus × Option String :=
  if s.isConnecting = true ∨ s.isDisconnected = true then
    (s, [], none)
  else if maxReconnectAttempts ≤ s.reconnectAttempts then
    (s,
     [⟨.error,
       "Failed to connect to ComfyUI after " ++ toString maxReconnectAttempts ++
       " attempts. Please check your settings and server status."⟩],
     none)
  else
    let wsUrl := normalizeUrl s.settings.wsUrl ("ws?clientId=" ++ s.clientId)
    ({ s with isConnecting := true, ws := some wsUrl }, [], some wsUrl)

/-- `connect()`: with a configured base URL, clear the intentional-disconnect
flag and call `connectWebSocket`; otherwise emit a configuration error. -/
def connect (s : ClientState) :
    ClientState × List GenerationStatus × Option String :=
  if s.settings.baseUrl ≠ "" then
    connectWebSocket { s with isDisconnected := false }
  else
    (s, [⟨.error, "ComfyUI server URL is not configured."⟩], none)

/-- `ws.onopen`: clear the connecting flag, reset the retry counter, emit the
connected status. -/
def wsOnOpen (s : ClientState) : ClientState × List GenerationStatus :=
  ({ s with isConnecting := false, reconnectAttempts := 0 },
   [⟨.connected, "Connected to ComfyUI"⟩])

/-- `ws.onerror`: clear the connecting flag, increment the retry counter, and
emit an error status carrying the attempt count. -/
def wsOnError (s : ClientState) : ClientState × List GenerationStatus :=
  let s1 := { s with isConnecting := false, reconnectAttempts := s.reconnectAttempts + 1 }
  (s1,
   [⟨.error,
     "WebSocket connection failed (attempt " ++ toString s1.reconnectAttempts ++ "/" ++
     toString maxReconnectAttempts ++ "). Check server settings and connectivity."⟩])

/-- `ws.onclose`, given the close code.  Returns the new state, the emitted
statuses, and the backoff delay of the reconnect scheduled by this event
(`none` when no reconnect was scheduled).  Scheduling first clears any
previously pending timer, so at most one timer is ever pending. -/
def wsOnClose (s : ClientState) (code : Nat) :
    ClientState × List GenerationStatus × Option Nat :=
  let s1 := { s with isConnecting := false }
  if s1.isDisconnected = true then
    (s1, [], none)
  else if code ≠ 1000 ∧ s1.reconnectAttempts < maxReconnectAttempts then
    let delay := min (3000 * 2 ^ s1.reconnectAttempts) 48000
    ({ s1 with reconnectTimeout := some delay },
     [⟨.error,
       "Connection lost. Attempting to reconnect... (" ++
       toString (s1.reconnectAttempts + 1) ++ "/" ++ toString maxReconnectAttempts ++ ")"⟩],
     some delay)
  else if maxReconnectAttempts ≤ s1.reconnectAttempts then
    (s1,
     [⟨.error,
       "Unable to maintain connection to ComfyUI. Please check your settings and server status."⟩],
     none)
  else
    (s1, [], none)

/-! ## Duplex message handling -/

/-- The recognised shapes of inbound duplex events.  `prompt_id`, and the
`node` of an `executing` event, are nullable in the wire format and so are
modelled as `Option`. -/
inductive WSMessage where
  | status (payload : String)
  | progress (promptId : Option String) (value maxValue : Nat)
  | executing (node : Option String) (promptId : Option String)
  | other (msgType : String)
  deriving Repr, DecidableEq

/-- `Math.round((value / max) * 100)` for non-negative integer inputs:
round-half-up of `100 * value / max`, computed exactly. -/
def jsRound100 (value maxValue : Nat) : Nat :=
  (200 * value + maxValue) / (2 * maxValue)

/-- `handleWebSocketMessage`: returns the emitted statuses and whether output
resolution (`getGeneratedImage`) was triggered. -/
def handleWebSocketMessage (s : ClientState) (msg : WSMessage) :
    List GenerationStatus × Bool :=
  match msg with
  | .status _ => ([], false)
  | .progress promptId value maxValue =>
      if promptId = s.currentPromptId then
        ([⟨.generating, "Generating... " ++ toString (jsRound100 value maxValue) ++ "%"⟩],
         false)
      else ([], false)
  | .executing node promptId =>
      if node = none ∧ promptId = s.currentPromptId then ([], true)
      else ([], false)
  | .other _ => ([], false)

/-- `ws.onmessage`: the whole body runs under a try/catch, so a payload that
fails to parse (or any throw inside the dispatch) becomes a single error
status; `parsed = none` models that failure. -/
def wsOnMessage (s : ClientState) (parsed : Option WSMessage) :
    List GenerationStatus × Bool :=
  match parsed with
  | some msg => handleWebSocketMessage s msg
  | none => ([⟨.error, "Received malformed data from ComfyUI server."⟩], false)

/-! ## HTTP failures -/

/-- The `error`-field of a backend validation response (or one of the entries
of a node error's `errors` list): either a string or an object with an
optional `message`. -/
inductive ErrField where
  | str (s : String)
  | obj (message : Option String)
  deriving Repr, DecidableEq

/-- JS truthiness of an error field: any object is truthy, a string is
truthy when non-empty. -/
def ErrField.truthy : ErrField → Bool
  | .str s => s ≠ ""
  | .obj _ => true

/-- A shallow `JSON.stringify` of an error field (used by the fallback
branches of the message flattening). -/
def stringifyErrField : ErrField → String
  | .str s => "\x22" ++ s ++ "\x22"
  | .obj none => "\x7b\x7d"
  | .obj (some m) => "\x7b\x22message\x22:\x22" ++ m ++ "\x22\x7d"

/-- One entry of the backend's per-node error map. -/
structure NodeError where
  class_type : Option String
  errors : Option (List ErrField)
  message : Option String
  deriving Repr, DecidableEq

/-- The readable text of an error field: the string itself, a truthy
`message`, or the stringified object. -/
def errFieldText : ErrField → String
  | .str s => s
  | .obj (some m) => if m ≠ "" then m else stringifyErrField (.obj (some m))
  | .obj none => stringifyErrField (.obj none)

/-- The flattened text for one node-error entry: the node id, the optional
node-type label, and either the joined sub-errors, a truthy `message`, or
"Unknown error". -/
def nodeErrorText (nodeId : String) (ne : NodeError) : String :=
  let base :=
    "Node " ++ nodeId ++
    (match ne.class_type with
     | some ct => if ct ≠ "" then " (" ++ ct ++ ")" else ""
     | none => "")
  match ne.errors with
  | some (e :: es) => base ++ ": " ++ String.intercalate ", " ((e :: es).map errFieldText)
  | _ =>
      match ne.message with
      | some m => if m ≠ "" then base ++ ": " ++ m else base ++ ": Unknown error"
      | none => base ++ ": Unknown error"

/-- The failure value of an awaited `axios` call, as far as the client
inspects it: the `isAxiosError` tag, `response.status`, the network error
`code`, and — for the submit call — `response.data.error` and
`response.data.node_errors`.  A missing `response`/`data` is modelled by the
respective fields being `none`. -/
structure AxiosFailure where
  isAxiosError : Bool
  responseStatus : Option Nat
  code : Option String
  dataError : Option ErrField
  nodeErrors : Option (List (String × NodeError))
  deriving Repr, DecidableEq

/-- Truthiness of `error.response?.data?.error`. -/
def dataErrorTruthy (f : AxiosFailure) : Bool :=
  match f.dataError with
  | some e => e.truthy
  | none => false

/-- The flattened human-readable message for a backend validation failure
(the `error.response?.data?.error` branch of `generateImage`'s catch). -/
def validationErrorMessage (f : AxiosFailure) : String :=
  let m1 :=
    "Generation failed: " ++
    (match f.dataError with
     | some e => if e.truthy then errFieldText e else ""
     | none => "")
  match f.nodeErrors with
  | none => m1
  | some entries =>
      let nodeStr := String.intercalate " | " (entries.map fun p => nodeErrorText p.1 p.2)
      if nodeStr ≠ "" then m1 ++ " | Node Issues: " ++ nodeStr else m1

/-- The classified message of the upload catch's non-validation branch. -/
def uploadHttpErrorMessage (f : AxiosFailure) : String :=
  if f.responseStatus = some 404 then
    "ComfyUI server not found. Check your server URL in settings."
  else if f.responseStatus = some 403 then
    "Upload forbidden. Check authentication credentials in settings."
  else if f.code = some "ECONNREFUSED" then
    "Cannot connect to ComfyUI server. Check your server URL in settings."
  else if f.code = some "TIMEOUT" then
    "Upload timed out. The file might be too large."
  else "Failed to upload image"

/-- The classified message of the generate catch's non-validation branch. -/
def generateHttpErrorMessage (f : AxiosFailure) : String :=
  if f.responseStatus = some 404 then
    "ComfyUI server not found. Check your server URL in settings."
  else if f.responseStatus = some 403 then
    "Generation forbidden. Check authentication credentials in settings."
  else if f.code = some "ECONNREFUSED" then
    "Cannot connect to ComfyUI server. Check your server URL in settings."
  else if f.code = some "TIMEOUT" then
    "Generation request timed out."
  else "Failed to generate image"

/-! ## Upload and job submission -/

/-- The response of `POST /upload/image`. -/
structure UploadResponse where
  name : String
  deriving Repr, DecidableEq

/-- `uploadImage(file)`, with the outcome of the awaited multipart POST
passed explicitly.  Returns the emitted statuses and either the stored name
or the thrown `Error('Failed to upload image')`. -/
def uploadImage (_s : ClientState) (request : Except AxiosFailure UploadResponse) :
    List GenerationStatus × Except String String :=
  let uploading : GenerationStatus := ⟨.uploading, "Uploading image..."⟩
  match request with
  | .ok resp => ([uploading], .ok resp.name)
  | .error f =>
      let msg :=
        if f.isAxiosError = true then uploadHttpErrorMessage f
        else "Unknown upload error occurred"
      ([uploading, ⟨.error, msg⟩], .error "Failed to upload image")

/-- The response of `POST /prompt`. -/
structure SubmitResponse where
  prompt_id : String
  deriving Repr, DecidableEq

/-- `generateImage(prompt, imageName)`, with the outcome of the awaited
submit POST (whose body is the built workflow plus the client id) passed
explicitly.  On success the response's `prompt_id` becomes the tracked job.
On an axios failure carrying a truthy `response.data.error`, the flattened
validation message is emitted and the function returns normally; every other
failure is classified, emitted, and rethrown. -/
def generateImage (s : ClientState) (request : Except AxiosFailure SubmitResponse) :
    ClientState × List GenerationStatus × Except AxiosFailure Unit :=
  let preparing : GenerationStatus := ⟨.generating, "Preparing generation..."⟩
  match request with
  | .ok resp =>
      ({ s with currentPromptId := some resp.prompt_id },
       [preparing, ⟨.generating, "Generation started..."⟩],
       .ok ())
  | .error f =>
      if f.isAxiosError = true then
        if dataErrorTruthy f = true then
          (s, [preparing, ⟨.error, validationErrorMessage f⟩], .ok ())
        else
          (s, [preparing, ⟨.error, generateHttpErrorMessage f⟩], .error f)
      else
        (s, [preparing, ⟨.error, "Unknown generation error occurred"⟩], .error f)

/-! ## Output resolution -/

/-- One image descriptor inside a history entry's node output. -/
structure ImageInfo where
  filename : String
  subfolder : Option String
  type : String
  deriving Repr, DecidableEq

/-- The output of one node inside a history entry (`?.images?.[0]` treats a
missing list and an empty list alike, so a missing list is modelled as
`[]`). -/
structure NodeOutput where
  images : List ImageInfo
  deriving Repr, DecidableEq

/-- One history entry: its `outputs` map, keyed by node id. -/
structure HistoryEntry where
  outputs : List (String × NodeOutput)
  deriving Repr, DecidableEq

/-- The response of `GET /history/{promptId}`: a map keyed by job id. -/
abbrev HistoryResponse := List (String × HistoryEntry)

/-- The viewable URL built for an image descriptor (empty string for a
missing subfolder, via `|| ''`). -/
def viewUrl (s : ClientState) (info : ImageInfo) : String :=
  normalizeUrl s.settings.baseUrl
    ("view?filename=" ++ info.filename ++ "&subfolder=" ++ info.subfolder.getD "" ++
     "&type=" ++ info.type)

/-- `getGeneratedImage()`, with the tracked job id and the outcome of the
awaited history GET passed explicitly.  Returns the emitted statuses and the
URL handed to `onImageGenerated` (if any); the whole body runs under a
catch-all, so no failure escapes to the caller. -/
def getGeneratedImage (s : ClientState) (promptId : String)
    (fetch : Except AxiosFailure HistoryResponse) :
    List GenerationStatus × Option String :=
  match fetch with
  | .error _ => ([⟨.error, "Failed to retrieve generated image"⟩], none)
  | .ok history =>
      match history.lookup promptId with
      | none => ([⟨.error, "Generated image not found in output"⟩], none)
      | some entry =>
          match entry.outputs.lookup "9" with
          | none => ([⟨.error, "Generated image not found in output"⟩], none)
          | some nodeOut =>
              match nodeOut.images with
              | [] => ([⟨.error, "Generated image not found in output"⟩], none)
              | info :: _ =>
                  ([⟨.completed, "Image generated successfully!"⟩],
                   some (viewUrl s info))

/-! ## Workflow construction -/

/-- A JSON value inside a workflow node's `inputs`: null, a string, a
number, or a `[nodeId, outputIndex]` cross-reference. -/
inductive JVal where
  | null
  | str (s : String)
  | num (q : ℚ)
  | ref (node : String) (idx : Nat)
  deriving Repr, DecidableEq

/-- One node of the submitted job graph: its typed inputs, class type, and
`_meta.title`. -/
structure WfNode where
  inputs : List (String × JVal)
  class_type : String
  title : String
  deriving Repr, DecidableEq

/-- `createDreamOWorkflow(prompt, imageName)` (the only branch of
`createWorkflow`), with the random seed passed explicitly.  The spread
`...(imageName ? {52, 55, 56} : {})` becomes a conditional list segment, and
node 50's `ref1` input is the conditional `imageName ? ["55", 0] : null`. -/
def createDreamOWorkflow (prompt imageName : String) (seed : Nat) :
    List (String × WfNode) :=
  [("6", ⟨[("text", .str prompt), ("clip", .ref "39" 0)],
          "CLIPTextEncode", "CLIP Text Encode (Positive Prompt)"⟩),
   ("8", ⟨[("samples", .ref "31" 0), ("vae", .ref "40" 0)],
          "VAEDecode", "VAE Decode"⟩),
   ("9", ⟨[("filename_prefix", .str "ComfyUI"), ("images", .ref "8" 0)],
          "SaveImage", "Save Image"⟩),
   ("27", ⟨[("width", .num 1024), ("height", .num 1024), ("batch_size", .num 1)],
           "EmptySD3LatentImage", "EmptySD3LatentImage"⟩),
   ("31", ⟨[("seed", .num seed), ("steps", .num 12), ("cfg", .num 1),
            ("sampler_name", .str "euler"), ("scheduler", .str "simple"),
            ("denoise", .num 1), ("model", .ref "50" 0), ("positive", .ref "35" 0),
            ("negative", .ref "33" 0), ("latent_image", .ref "27" 0)],
           "KSampler", "KSampler"⟩),
   ("33", ⟨[("text", .str ""), ("clip", .ref "39" 0)],
           "CLIPTextEncode", "CLIP Text Encode (Negative Prompt)"⟩),
   ("35", ⟨[("guidance", .num (7 / 2)), ("conditioning", .ref "6" 0)],
           "FluxGuidance", "FluxGuidance"⟩),
   ("39", ⟨[("clip_name1", .str "t5xxl_fp16.safetensors"),
            ("clip_name2", .str "clip_l.safetensors"),
            ("type", .str "flux"), ("device", .str "default")],
           "DualCLIPLoader", "DualCLIPLoader"⟩),
   ("40", ⟨[("vae_name", .str "ae.sft")], "VAELoader", "Load VAE"⟩),
   ("41", ⟨[("lora_name", .str "flux-turbo.safetensors"),
            ("strength_model", .num 1), ("model", .ref "57" 0)],
           "LoraLoaderModelOnly", "LoraLoaderModelOnly"⟩),
   ("42", ⟨[("lora_name", .str "dreamo_comfyui.safetensors"),
            ("strength_model", .num 1), ("model", .ref "41" 0)],
           "LoraLoaderModelOnly", "LoraLoaderModelOnly"⟩),
   ("43", ⟨[("lora_name", .str "dreamo_cfg_distill_comfyui.safetensors"),
            ("strength_model", .num 1), ("model", .ref "42" 0)],
           "LoraLoaderModelOnly", "LoraLoaderModelOnly"⟩),
   ("44", ⟨[("lora_name", .str "dreamo_quality_lora_pos_comfyui.safetensors"),
            ("strength_model", .num (3 / 20)), ("model", .ref "43" 0)],
           "LoraLoaderModelOnly", "LoraLoaderModelOnly"⟩),
   ("45", ⟨[("lora_name", .str "dreamo_quality_lora_neg_comfyui.safetensors"),
            ("strength_model", .num (-4 / 5)), ("model", .ref "44" 0)],
           "LoraLoaderModelOnly", "LoraLoaderModelOnly"⟩),
   ("46", ⟨[], "DreamOProcessorLoader", "DreamO Processor Loader"⟩),
   ("50", ⟨[("model", .ref "45" 0),
            ("ref1", if imageName ≠ "" then .ref "55" 0 else .null)],
           "ApplyDreamO", "Apply DreamO"⟩)] ++
  (if imageName ≠ "" then
    [("52", ⟨[("image", .str imageName)], "LoadImage", "Load Image"⟩),
     ("55", ⟨[("ref_task", .str "ip"), ("pixels", .ref "52" 0), ("vae", .ref "40" 0),
              ("dreamo_processor", .ref "46" 0)],
             "DreamORefEncode", "DreamO Ref Image Encode"⟩),
     ("56", ⟨[("images", .ref "55" 1)], "PreviewImage", "Preview Image"⟩)]
  else []) ++
  [("57", ⟨[("unet_name", .str "flux1-dev-Q8_0.gguf")],
           "UnetLoaderGGUF", "Unet Loader (GGUF)"⟩)]

/-! ## Concrete states used by witnesses and counterexamples -/

/-- Settings pointing at a public host, without Cloudflare Access. -/
def demoSettings : ComfyUISettings :=
  ⟨"http://example.com:8188", "ws://example.com:8188", "", "", false⟩

/-- A freshly constructed client over `demoSettings`. -/
def freshClient : ClientState := initialState demoSettings "cid"

/-- A client whose retry budget is exhausted. -/
def exhaustedClient : ClientState := { freshClient with reconnectAttempts := 5 }

/-- A client tracking job `job-a`. -/
def trackedClient : ClientState := { freshClient with currentPromptId := some "job-a" }

/-- A client that was explicitly disconnected. -/
def disconnectedClient : ClientState := { freshClient with isDisconnected := true }

/-- A client with a connection attempt in flight. -/
def busyClient : ClientState := { freshClient with isConnecting := true }

/-- A client with no configured base URL. -/
def noUrlClient : ClientState := { freshClient with settings := ⟨"", "", "", "", false⟩ }

/-- Auth enabled with valid credentials against a loopback endpoint. -/
def localAuthSettings : ComfyUISettings :=
  ⟨"http://127.0.0.1:8188", "ws://127.0.0.1:8188", "id1", "sec1", true⟩

/-- Auth enabled with valid credentials against a public endpoint. -/
def publicAuthSettings : ComfyUISettings :=
  ⟨"https://example.com", "wss://example.com", "id1", "sec1", true⟩

/-- Auth enabled with valid credentials against `10.1.2.3`, an RFC1918
private address that none of the code's five substring markers match. -/
def privateTenSettings : ComfyUISettings :=
  ⟨"http://10.1.2.3:8188", "ws://10.1.2.3:8188", "id1", "sec1", true⟩

/-! ## C1 — auth header derivation -/

/-- C1 counterexample: the endpoint `http://10.1.2.3:8188` is an RFC1918
private-network address (10.0.0.0/8) and auth is enabled with non-empty
credentials, yet both auth headers are attached to JSON and to upload
requests — contradicting the claim that no loopback/private endpoint ever
receives them. -/
theorem c1_auth_headers_counterexample :
    specLoopbackOrPrivate privateTenSettings.baseUrl = true ∧
    privateTenSettings.useCloudflareAccess = true ∧
    privateTenSettings.cfAccessClientId ≠ "" ∧
    privateTenSettings.cfAccessClientSecret ≠ "" ∧
    ("CF-Access-Client-Id", "id1") ∈ updateHeaders privateTenSettings ∧
    ("CF-Access-Client-Secret", "sec1") ∈ updateHeaders privateTenSettings ∧
    ("CF-Access-Client-Id", "id1") ∈ uploadHeaders privateTenSettings ∧
    ("CF-Access-Client-Secret", "sec1") ∈ uploadHeaders privateTenSettings := by
  decide

/-- C1 (amended): for every settings object, the derived headers for JSON
calls and for uploads carry the two auth headers (id and secret verbatim) iff
auth is enabled, both credentials are non-empty, and the base URL contains
none of the five local-development substring markers (`localhost`,
`127.0.0.1`, `192.168.`, `10.0.`, `172.16.`); in particular the loopback
endpoint `http://127.0.0.1:8188` gets no auth headers, and
`https://example.com` gets both on both kinds of requests. -/
theorem c1_auth_headers_amended :
    (∀ s : ComfyUISettings,
      (("CF-Access-Client-Id", s.cfAccessClientId) ∈ updateHeaders s ∧
       ("CF-Access-Client-Secret", s.cfAccessClientSecret) ∈ updateHeaders s ∧
       ("CF-Access-Client-Id", s.cfAccessClientId) ∈ uploadHeaders s ∧
       ("CF-Access-Client-Secret", s.cfAccessClientSecret) ∈ uploadHeaders s) ↔
      (s.useCloudflareAccess = true ∧ s.cfAccessClientId ≠ "" ∧
       s.cfAccessClientSecret ≠ "" ∧ isLocalDevelopment s = false)) ∧
    updateHeaders localAuthSettings = [("Content-Type", "application/json")] ∧
    uploadHeaders localAuthSettings = [] ∧
    ("CF-Access-Client-Id", "id1") ∈ updateHeaders publicAuthSettings ∧
    ("CF-Access-Client-Secret", "sec1") ∈ updateHeaders publicAuthSettings ∧
    ("CF-Access-Client-Id", "id1") ∈ uploadHeaders publicAuthSettings ∧
    ("CF-Access-Client-Secret", "sec1") ∈ uploadHeaders publicAuthSettings := by
  refine ⟨fun s => ?_, by decide, by decide, by decide, by decide, by decide, by decide⟩
  by_cases h : s.useCloudflareAccess = true ∧ s.cfAccessClientId ≠ "" ∧
      s.cfAccessClientSecret ≠ "" ∧ isLocalDevelopment s = false
  · simp [updateHeaders, uploadHeaders, h]
  · simp only [updateHeaders, uploadHeaders, if_neg h]
    simp [h]

/-! ## C2 — bounded exponential reconnect backoff -/

/-- One failed (re)connection attempt seen from the socket callbacks: the
error event followed by an abnormal close (code 1006). -/
def closureCycle (s : ClientState) : ClientState :=
  (wsOnClose (wsOnError s).1 1006).1

/-- The state reached after five consecutive abnormal closures of
`freshClient`. -/
def afterFiveClosures : ClientState :=
  closureCycle (closureCycle (closureCycle (closureCycle (closureCycle freshClient))))

/-- C2: for every abnormal (non-intentional, non-1000) closure, if the retry
counter is below the maximum of 5 a single reconnect is scheduled with delay
`min(3000 * 2^attempts, 48000)` (and it is the only pending timer); once the
counter has reached the maximum, the closure emits the terminal error status
and schedules nothing.  In particular, the sixth consecutive abnormal
closure of a fresh client schedules nothing and emits the terminal error. -/
theorem c2_reconnect_backoff :
    (∀ (s : ClientState) (code : Nat), s.isDisconnected = false → code ≠ 1000 →
      (s.reconnectAttempts < maxReconnectAttempts →
        (wsOnClose s code).2.2 = some (min (3000 * 2 ^ s.reconnectAttempts) 48000) ∧
        (wsOnClose s code).1.reconnectTimeout =
          some (min (3000 * 2 ^ s.reconnectAttempts) 48000)) ∧
      (maxReconnectAttempts ≤ s.reconnectAttempts →
        (wsOnClose s code).2.2 = none ∧
        (wsOnClose s code).2.1 =
          [⟨.error,
            "Unable to maintain connection to ComfyUI. Please check your settings and server status."⟩])) ∧
    (wsOnClose (wsOnError afterFiveClosures).1 1006).2.2 = none ∧
    (wsOnClose (wsOnError afterFiveClosures).1 1006).2.1 =
      [⟨.error,
        "Unable to maintain connection to ComfyUI. Please check your settings and server status."⟩] := by
  refine ⟨fun s code hd hc => ⟨fun hlt => ?_, fun hge => ?_⟩, by decide, by decide⟩
  · simp [wsOnClose, hd, hc, hlt]
  · simp [wsOnClose, hd, hc, Nat.not_lt.mpr hge, hge]

/-- C2 witness: both branches of the backoff rule at concrete states — the
fresh client (counter 0) schedules a 3000 ms reconnect, the exhausted client
(counter 5) schedules nothing and emits the terminal error. -/
theorem c2_reconnect_backoff_witness :
    freshClient.isDisconnected = false ∧ (1006 : Nat) ≠ 1000 ∧
    freshClient.reconnectAttempts < maxReconnectAttempts ∧
    (wsOnClose freshClient 1006).2.2 =
      some (min (3000 * 2 ^ freshClient.reconnectAttempts) 48000) ∧
    maxReconnectAttempts ≤ exhaustedClient.reconnectAttempts ∧
    (wsOnClose exhaustedClient 1006).2.2 = none := by
  refine ⟨rfl, by decide, by decide,
    ((c2_reconnect_backoff.1 freshClient 1006 rfl (by decide)).1 (by decide)).1,
    by decide,
    ((c2_reconnect_backoff.1 exhaustedClient 1006 rfl (by decide)).2 (by decide)).1⟩

/-! ## C3 — events for a different job are ignored -/

/-- C3: a `progress` or `executing` event whose job id differs from the
tracked job id emits no status and does not trigger output resolution. -/
theorem c3_mismatched_events_ignored (s : ClientState) (promptId : Option String)
    (value maxValue : Nat) (node : Option String)
    (h : promptId ≠ s.currentPromptId) :
    handleWebSocketMessage s (.progress promptId value maxValue) = ([], false) ∧
    handleWebSocketMessage s (.executing node promptId) = ([], false) := by
  constructor <;> simp [handleWebSocketMessage, h]

/-- C3 witness: a fresh client (tracking no job) ignores progress and
executing events for `job-a`. -/
theorem c3_mismatched_events_ignored_witness :
    some "job-a" ≠ freshClient.currentPromptId ∧
    handleWebSocketMessage freshClient (.progress (some "job-a") 3 7) = ([], false) ∧
    handleWebSocketMessage freshClient (.executing none (some "job-a")) = ([], false) := by
  have h := c3_mismatched_events_ignored freshClient (some "job-a") 3 7 none (by decide)
  exact ⟨by decide, h.1, h.2⟩

/-! ## C4 — progress percentage -/

/-- C4: a matching `progress` event with positive `max` emits a generating
status whose percentage is the round-half-up of `value/max*100` (the exact
rational rounding), and for `value = 30`, `max = 120` that percentage
is 25. -/
theorem c4_progress_percent (s : ClientState) (promptId : Option String)
    (value maxValue : Nat) (hpid : promptId = s.currentPromptId) (hm : 0 < maxValue) :
    handleWebSocketMessage s (.progress promptId value maxValue) =
      ([⟨.generating, "Generating... " ++ toString (jsRound100 value maxValue) ++ "%"⟩],
       false) ∧
    (jsRound100 value maxValue : ℤ) = round ((value : ℚ) / maxValue * 100) ∧
    jsRound100 30 120 = 25 := by
  refine ⟨by simp [handleWebSocketMessage, hpid], ?_, by decide⟩
  have hm0 : (maxValue : ℚ) ≠ 0 := Nat.cast_ne_zero.mpr hm.ne'
  rw [round_eq]
  have key : (value : ℚ) / maxValue * 100 + 1 / 2 =
      (((200 * value + maxValue : ℕ) : ℤ) : ℚ) / ((2 * maxValue : ℕ) : ℚ) := by
    push_cast
    field_simp
    ring
  rw [key, Rat.floor_intCast_div_natCast]
  show (((200 * value + maxValue) / (2 * maxValue) : ℕ) : ℤ) = _
  push_cast [Int.natCast_div]
  rfl

/-- C4 witness: the tracked client receives `progress value=30 max=120` and
emits exactly 25%. -/
theorem c4_progress_percent_witness :
    some "job-a" = trackedClient.currentPromptId ∧ 0 < 120 ∧
    handleWebSocketMessage trackedClient (.progress (some "job-a") 30 120) =
      ([⟨.generating, "Generating... 25%"⟩], false) := by
  have h := c4_progress_percent trackedClient (some "job-a") 30 120 rfl (by decide)
  exact ⟨rfl, by decide, h.1.trans (by decide)⟩

/-! ## C5 — image branch of the job graph -/

/-- C5: the job graph contains the image-load node 52, the reference-encode
node 55, and its preview node 56 iff `imageName` is non-empty; with an empty
`imageName` none of the three is present and node 50's `ref1` input is
null. -/
theorem c5_workflow_image_branch (prompt imageName : String) (seed : Nat) :
    (imageName ≠ "" ↔
      ((createDreamOWorkflow prompt imageName seed).lookup "52").isSome = true ∧
      ((createDreamOWorkflow prompt imageName seed).lookup "55").isSome = true ∧
      ((createDreamOWorkflow prompt imageName seed).lookup "56").isSome = true) ∧
    (imageName = "" →
      (createDreamOWorkflow prompt imageName seed).lookup "52" = none ∧
      (createDreamOWorkflow prompt imageName seed).lookup "55" = none ∧
      (createDreamOWorkflow prompt imageName seed).lookup "56" = none ∧
      ((createDreamOWorkflow prompt imageName seed).lookup "50").map
        (fun n => n.inputs.lookup "ref1") = some (some .null)) := by
  by_cases h : imageName = ""
  · subst h
    refine ⟨⟨fun hc => absurd rfl hc, fun ⟨h52, _, _⟩ => ?_⟩,
      fun _ => ⟨rfl, rfl, rfl, rfl⟩⟩
    have hnone : (createDreamOWorkflow prompt "" seed).lookup "52" = none := rfl
    rw [hnone] at h52
    exact Bool.noConfusion h52
  · refine ⟨⟨fun _ => ?_, fun _ => h⟩, fun he => absurd he h⟩
    simp only [createDreamOWorkflow, if_pos h]
    exact ⟨rfl, rfl, rfl⟩

/-- C5 witness: with `imageName = "ref.png"` the three image nodes are
present; with `imageName = ""` they are absent and `ref1` is null. -/
theorem c5_workflow_image_branch_witness :
    (("ref.png" : String) ≠ "" ∧
      ((createDreamOWorkflow "a cat" "ref.png" 42).lookup "52").isSome = true ∧
      ((createDreamOWorkflow "a cat" "ref.png" 42).lookup "56").isSome = true) ∧
    ((createDreamOWorkflow "a cat" "" 42).lookup "52" = none ∧
      ((createDreamOWorkflow "a cat" "" 42).lookup "50").map
        (fun n => n.inputs.lookup "ref1") = some (some .null)) := by
  have h1 := (c5_workflow_image_branch "a cat" "ref.png" 42).1.mp (by decide)
  have h2 := (c5_workflow_image_branch "a cat" "" 42).2 rfl
  exact ⟨⟨by decide, h1.1, h1.2.2⟩, h2.1, h2.2.2.2⟩

/-! ## C6 — updateSettings frame conditions -/

/-- C6: with deep-equal settings `updateSettings` changes nothing at all (in
particular the connection is not torn down); with differing settings it
disconnects (socket and pending timer dropped), stores the new settings,
recomputes the headers, resets the retry counter and both flags, and opens
no new connection. -/
theorem c6_update_settings (s : ClientState) (newSettings : ComfyUISettings) :
    (newSettings = s.settings → updateSettings s newSettings = s) ∧
    (newSettings ≠ s.settings →
      updateSettings s newSettings =
        { settings := newSettings
          clientId := s.clientId
          ws := none
          currentPromptId := s.currentPromptId
          headers := updateHeaders newSettings
          reconnectAttempts := 0
          reconnectTimeout := none
          isConnecting := false
          isDisconnected := false }) := by
  constructor
  · intro h
    simp [updateSettings, h]
  · intro h
    have h' : s.settings ≠ newSettings := fun e => h e.symm
    simp [updateSettings, disconnect, h']

/-- C6 witness: re-applying the current settings leaves the fresh client
untouched; applying `localAuthSettings` rebuilds the state around them. -/
theorem c6_update_settings_witness :
    updateSettings freshClient freshClient.settings = freshClient ∧
    localAuthSettings ≠ freshClient.settings ∧
    updateSettings freshClient localAuthSettings =
      { settings := localAuthSettings
        clientId := freshClient.clientId
        ws := none
        currentPromptId := freshClient.currentPromptId
        headers := updateHeaders localAuthSettings
        reconnectAttempts := 0
        reconnectTimeout := none
        isConnecting := false
        isDisconnected := false } := by
  exact ⟨(c6_update_settings freshClient freshClient.settings).1 rfl,
    by decide,
    (c6_update_settings freshClient localAuthSettings).2 (by decide)⟩

/-! ## C7 — output resolution -/

/-- C7: a history response with no entry for the tracked job, no node-"9"
output, or an empty image list yields the "not found" error status and never
invokes the image-ready callback; a first image descriptor yields the
completed status and the callback URL built from filename, subfolder
(defaulted to the empty string) and type. -/
theorem c7_output_resolution (s : ClientState) (promptId : String)
    (hist : HistoryResponse) :
    (hist.lookup promptId = none →
      getGeneratedImage s promptId (.ok hist) =
        ([⟨.error, "Generated image not found in output"⟩], none)) ∧
    (∀ entry, hist.lookup promptId = some entry →
      entry.outputs.lookup "9" = none →
      getGeneratedImage s promptId (.ok hist) =
        ([⟨.error, "Generated image not found in output"⟩], none)) ∧
    (∀ entry nodeOut, hist.lookup promptId = some entry →
      entry.outputs.lookup "9" = some nodeOut → nodeOut.images = [] →
      getGeneratedImage s promptId (.ok hist) =
        ([⟨.error, "Generated image not found in output"⟩], none)) ∧
    (∀ entry nodeOut info rest, hist.lookup promptId = some entry →
      entry.outputs.lookup "9" = some nodeOut → nodeOut.images = info :: rest →
      getGeneratedImage s promptId (.ok hist) =
        ([⟨.completed, "Image generated successfully!"⟩],
         some (normalizeUrl s.settings.baseUrl
           ("view?filename=" ++ info.filename ++ "&subfolder=" ++
            info.subfolder.getD "" ++ "&type=" ++ info.type)))) := by
  refine ⟨fun h => ?_, fun entry h1 h2 => ?_, fun entry nodeOut h1 h2 h3 => ?_,
    fun entry nodeOut info rest h1 h2 h3 => ?_⟩
  · simp [getGeneratedImage, h]
  · simp [getGeneratedImage, h1, h2]
  · simp [getGeneratedImage, h1, h2, h3]
  · simp [getGeneratedImage, viewUrl, h1, h2, h3]

/-- A sample image descriptor with no subfolder field. -/
def demoImage : ImageInfo := ⟨"ComfyUI_0001.png", none, "output"⟩

/-- A sample history response carrying `demoImage` under node "9" of job
`job-a`. -/
def demoHistory : HistoryResponse := [("job-a", ⟨[("9", ⟨[demoImage]⟩)]⟩)]

/-- C7 witness: an empty history yields the error status with no callback;
`demoHistory` yields the completed status and the view URL. -/
theorem c7_output_resolution_witness :
    ([] : HistoryResponse).lookup "job-a" = none ∧
    getGeneratedImage freshClient "job-a" (.ok []) =
      ([⟨.error, "Generated image not found in output"⟩], none) ∧
    getGeneratedImage freshClient "job-a" (.ok demoHistory) =
      ([⟨.completed, "Image generated successfully!"⟩],
       some "http://example.com:8188/view?filename=ComfyUI_0001.png&subfolder=&type=output") := by
  have h1 := (c7_output_resolution freshClient "job-a" []).1 rfl
  have h4 := (c7_output_resolution freshClient "job-a" demoHistory).2.2.2
    ⟨[("9", ⟨[demoImage]⟩)]⟩ ⟨[demoImage]⟩ demoImage [] rfl rfl rfl
  exact ⟨rfl, h1, h4.trans (by decide)⟩

/-! ## C8 — which failures are thrown to the caller -/

/-- C8: upload failures always rethrow after emitting an error status;
submit failures always emit an error status and rethrow exactly when the
failure carries no truthy backend validation error; a history-fetch failure
becomes an error status with no callback and nothing escapes the catch-all;
a malformed duplex payload becomes an error status and nothing is thrown
across the duplex boundary. -/
theorem c8_error_propagation :
    (∀ (s : ClientState) (f : AxiosFailure),
      (uploadImage s (.error f)).2 = Except.error "Failed to upload image" ∧
      ∃ msg, (⟨StatusType.error, msg⟩ : GenerationStatus) ∈ (uploadImage s (.error f)).1) ∧
    (∀ (s : ClientState) (f : AxiosFailure),
      ∃ msg, (⟨StatusType.error, msg⟩ : GenerationStatus) ∈ (generateImage s (.error f)).2.1) ∧
    (∀ (s : ClientState) (f : AxiosFailure),
      (generateImage s (.error f)).2.2 = Except.error f ↔
        ¬(f.isAxiosError = true ∧ dataErrorTruthy f = true)) ∧
    (∀ (s : ClientState) (promptId : String) (f : AxiosFailure),
      getGeneratedImage s promptId (.error f) =
        ([⟨.error, "Failed to retrieve generated image"⟩], none)) ∧
    (∀ s : ClientState,
      wsOnMessage s none =
        ([⟨.error, "Received malformed data from ComfyUI server."⟩], false)) := by
  refine ⟨fun s f => ⟨rfl, ?_⟩, fun s f => ?_, fun s f => ?_,
    fun s promptId f => rfl, fun s => rfl⟩
  · exact ⟨if f.isAxiosError = true then uploadHttpErrorMessage f
      else "Unknown upload error occurred", by simp [uploadImage]⟩
  · by_cases ha : f.isAxiosError = true
    · by_cases hd : dataErrorTruthy f = true
      · exact ⟨validationErrorMessage f, by simp [generateImage, ha, hd]⟩
      · exact ⟨generateHttpErrorMessage f, by simp [generateImage, ha, hd]⟩
    · exact ⟨"Unknown generation error occurred", by simp [generateImage, ha]⟩
  · by_cases ha : f.isAxiosError = true
    · by_cases hd : dataErrorTruthy f = true
      · simp [generateImage, ha, hd]
      · simp [generateImage, ha, hd]
    · simp [generateImage, ha]

/-! ## C9 — connect() -/

/-- C9 counterexample: on an explicitly disconnected client (no attempt in
flight), `connect()` is not a no-op — it opens a new duplex connection and
changes the state, contradicting the claim. -/
theorem c9_connect_counterexample :
    disconnectedClient.isDisconnected = true ∧
    disconnectedClient.isConnecting = false ∧
    (connect disconnectedClient).2.2 = some "ws://example.com:8188/ws?clientId=cid" ∧
    (connect disconnectedClient).1 ≠ disconnectedClient := by
  decide

/-- C9 (amended): `connect()` first clears the explicitly-disconnected flag
rather than treating it as a no-op condition; it opens no connection only
when the base URL is unset (configuration error status), an attempt is
already in flight (no state change beyond the cleared flag), or the retry
budget is exhausted (terminal error status); otherwise it opens a duplex
connection to the duplex endpoint with the session identity embedded in the
URL. -/
theorem c9_connect_amended (s : ClientState) :
    (s.settings.baseUrl = "" →
      connect s = (s, [⟨.error, "ComfyUI server URL is not configured."⟩], none)) ∧
    (s.settings.baseUrl ≠ "" → s.isConnecting = true →
      connect s = ({ s with isDisconnected := false }, [], none)) ∧
    (s.settings.baseUrl ≠ "" → s.isConnecting = false →
      maxReconnectAttempts ≤ s.reconnectAttempts →
      connect s =
        ({ s with isDisconnected := false },
         [⟨.error,
           "Failed to connect to ComfyUI after " ++ toString maxReconnectAttempts ++
           " attempts. Please check your settings and server status."⟩],
         none)) ∧
    (s.settings.baseUrl ≠ "" → s.isConnecting = false →
      s.reconnectAttempts < maxReconnectAttempts →
      connect s =
        ({ s with isDisconnected := false, isConnecting := true,
                  ws := some (normalizeUrl s.settings.wsUrl ("ws?clientId=" ++ s.clientId)) },
         [],
         some (normalizeUrl s.settings.wsUrl ("ws?clientId=" ++ s.clientId)))) := by
  refine ⟨fun h => ?_, fun h hc => ?_, fun h hc hmax => ?_, fun h hc hlt => ?_⟩
  · simp [connect, h]
  · simp [connect, connectWebSocket, h, hc]
  · simp [connect, connectWebSocket, h, hc, hmax]
  · simp [connect, connectWebSocket, h, hc, Nat.not_le.mpr hlt]

/-- C9 witness: all four branches of the amended rule at concrete clients. -/
theorem c9_connect_amended_witness :
    connect noUrlClient =
      (noUrlClient, [⟨.error, "ComfyUI server URL is not configured."⟩], none) ∧
    connect busyClient = ({ busyClient with isDisconnected := false }, [], none) ∧
    connect exhaustedClient =
      ({ exhaustedClient with isDisconnected := false },
       [⟨.error,
         "Failed to connect to ComfyUI after " ++ toString maxReconnectAttempts ++
         " attempts. Please check your settings and server status."⟩],
       none) ∧
    connect freshClient =
      ({ freshClient with
          isDisconnected := false
          isConnecting := true
          ws := some (normalizeUrl freshClient.settings.wsUrl
            ("ws?clientId=" ++ freshClient.clientId)) },
       [],
       some (normalizeUrl freshClient.settings.wsUrl
         ("ws?clientId=" ++ freshClient.clientId))) := by
  exact ⟨(c9_connect_amended noUrlClient).1 rfl,
    (c9_connect_amended busyClient).2.1 (by decide) rfl,
    (c9_connect_amended exhaustedClient).2.2.1 (by decide) rfl (by decide),
    (c9_connect_amended freshClient).2.2.2 (by decide) rfl (by decide)⟩

/-! ## C10 — failed submission leaves the tracked job untouched -/

/-- C10: every failing submit call (validation failure or any other failure)
leaves the client state — in particular the tracked job id — unchanged, so
duplex events keep being correlated exactly as before the failed call. -/
theorem c10_failed_submit_keeps_job (s : ClientState) (f : AxiosFailure) :
    (generateImage s (.error f)).1 = s ∧
    (generateImage s (.error f)).1.currentPromptId = s.currentPromptId ∧
    ∀ msg, handleWebSocketMessage (generateImage s (.error f)).1 msg =
      handleWebSocketMessage s msg := by
  have h1 : (generateImage s (.error f)).1 = s := by
    by_cases ha : f.isAxiosError = true
    · by_cases hd : dataErrorTruthy f = true
      · simp [generateImage, ha, hd]
      · simp [generateImage, ha, hd]
    · simp [generateImage, ha]
  exact ⟨h1, by rw [h1], fun msg => by rw [h1]⟩

end Craft
